import Mathlib

/-!
Verification development for the LoRa receiver scripts (`receiver.py`,
`sample.py`).  Bytes are modelled as natural numbers below 256 in `List Nat`;
decoded text is modelled as the list of Unicode code points of the Python
string.  Console output is modelled as a list of structured output lines.
-/

namespace Radio

/-! ## Byte-to-text conversion (`receiver.py`, `bytes_to_text`) -/

/-- A continuation byte of a multi-byte UTF-8 sequence lies in `0x80..0xBF`. -/
def contOk (c : Nat) : Bool := 0x80 ≤ c && c ≤ 0xBF

/-- Lower bound for the first continuation byte (strict UTF-8: rules out
overlong encodings for lead bytes `0xE0` and `0xF0`). -/
def cont1Lo (b : Nat) : Nat :=
  if b = 0xE0 then 0xA0 else if b = 0xF0 then 0x90 else 0x80

/-- Upper bound for the first continuation byte (strict UTF-8: rules out
surrogates after `0xED` and code points above `U+10FFFF` after `0xF4`). -/
def cont1Hi (b : Nat) : Nat :=
  if b = 0xED then 0x9F else if b = 0xF4 then 0x8F else 0xBF

/-- Strict UTF-8 decoding, one byte at a time.  The state `none` means the
next byte must start a new (possibly single-byte) sequence; the state
`some (need, acc, lo, hi)` means `need` continuation bytes are still
expected, `acc` is the partial code point, and the next byte must lie in
`[lo, hi]` (the first continuation byte of a sequence has the narrowed
range that rules out overlong forms, surrogates, and values above
`U+10FFFF`). -/
def utf8Aux : Option (Nat × Nat × Nat × Nat) → List Nat → Option (List Nat)
  | none, [] => some []
  | some _, [] => none
  | none, b :: rest =>
    if b ≤ 0x7F then (utf8Aux none rest).map (fun t => b :: t)
    else if 0xC2 ≤ b && b ≤ 0xDF then
      utf8Aux (some (1, b - 0xC0, cont1Lo b, cont1Hi b)) rest
    else if 0xE0 ≤ b && b ≤ 0xEF then
      utf8Aux (some (2, b - 0xE0, cont1Lo b, cont1Hi b)) rest
    else if 0xF0 ≤ b && b ≤ 0xF4 then
      utf8Aux (some (3, b - 0xF0, cont1Lo b, cont1Hi b)) rest
    else none
  | some (need, acc, lo, hi), c :: rest =>
    if lo ≤ c && c ≤ hi then
      if need ≤ 1 then (utf8Aux none rest).map (fun t => (acc * 0x40 + (c - 0x80)) :: t)
      else utf8Aux (some (need - 1, acc * 0x40 + (c - 0x80), 0x80, 0xBF)) rest
    else none

/-- Strict UTF-8 decoding of a byte sequence into a list of code points,
exactly the acceptance behaviour of Python's `bytes.decode("utf-8")`:
`none` models a raised `UnicodeDecodeError`. -/
def utf8Decode (l : List Nat) : Option (List Nat) := utf8Aux none l

/-- ASCII decoding, the acceptance behaviour of Python's
`bytes.decode("ascii")`: succeeds exactly when every byte is below `0x80`,
and then each byte is its own code point. -/
def asciiDecode (l : List Nat) : Option (List Nat) :=
  if l.all (fun b => b ≤ 0x7F) then some l else none

/-- Python's `str.rstrip("\x00")`: drop every trailing `U+0000` code point. -/
def rstripNull (l : List Nat) : List Nat :=
  (l.reverse.dropWhile (fun c => c = 0)).reverse

/-- One hexadecimal digit character (code point), lower case. -/
def hexDigit (n : Nat) : Nat := if n < 10 then 48 + n else 87 + n

/-- Two-character lower-case hex rendering of one byte. -/
def byteHex (b : Nat) : List Nat := [hexDigit (b / 16), hexDigit (b % 16)]

/-- Python's `bytes.hex()`: two lower-case hex digits per byte. -/
def bytesHex (l : List Nat) : List Nat := l.flatMap byteHex

/-- Code points of the literal text `<hex: `. -/
def hexPrefixChars : List Nat := [60, 104, 101, 120, 58, 32]

/-- The hex fallback string `<hex: ...>` of `bytes_to_text`. -/
def hexFallback (l : List Nat) : List Nat := hexPrefixChars ++ bytesHex l ++ [62]

/-- Function `bytes_to_text` from `receiver.py`: empty input gives the empty string;
otherwise try UTF-8 (stripping trailing nulls), then ASCII (stripping
trailing nulls), then fall back to the `<hex: ...>` rendering. -/
def bytes_to_text (data : List Nat) : List Nat :=
  if data = [] then []
  else
    match utf8Decode data with
    | some text => rstripNull text
    | none =>
      match asciiDecode data with
      | some text => rstripNull text
      | none => hexFallback data

/-! ## Console output lines

Each constructor stands for one `print` statement of the scripts; the
arguments are the data interpolated into the printed string. -/

inductive OutputLine
  /-- In `receiver.py`: `Error receiving message: {e}` -/
  | errorReceiving (e : List Nat)
  /-- In `receiver.py`: `[Packet #{packet_count}]` -/
  | packetHeader (n : Nat)
  /-- In `receiver.py`: `  Length: {len(message)} bytes` -/
  | lengthLine (n : Nat)
  /-- In `receiver.py`: `  Data: {text}` -/
  | dataLine (t : List Nat)
  /-- In `receiver.py`: `  Hex: {message.hex()}` -/
  | hexLine (h : List Nat)
  /-- In `receiver.py`: the bare `print()` after each packet -/
  | blankLine
  /-- In `sample.py`: `Received: {message}` -/
  | receivedLine (t : List Nat)
  /-- In `sample.py`: the RSSI/SNR packet-status line (float telemetry values
  are reported by the radio chip and are not modelled) -/
  | statusLine
  /-- In `sample.py`: `CRC error` -/
  | crcErrorLine
  /-- In `sample.py`: `Packet header error` -/
  | headerErrorLine
  /-- In `sample.py`: `Begin LoRa radio` -/
  | beginLine
  /-- In `sample.py`: `LoRa begin failed with error code: {code}` -/
  | beginFailedLine (code : Int)
  /-- In `sample.py`: the `n`-th configuration progress print -/
  | configLine (n : Nat)
  deriving DecidableEq

/-! ## The vendor radio object during one `receive_message` call

`payload` is the packet payload the chip delivers after `wait()`:
`available()` returns the number of bytes not yet read and `read()` pops
the next byte.  `failAt = some n` means the `n`-th vendor-library call of
this `receive_message` invocation (counting from 0) raises an exception
with text `errMsg`; `failAt = none` means no call raises. -/

structure RadioRun where
  payload : List Nat
  failAt : Option Nat
  errMsg : List Nat
  deriving DecidableEq

/-- Does the `k`-th vendor-library call of this run raise? -/
def raisesAt (r : RadioRun) (k : Nat) : Bool :=
  match r.failAt with
  | none => false
  | some n => k = n

/-- The `while lora.available() > 0: message.append(lora.read())` loop of
`receive_message`.  `remaining` is the unread payload, `k` the index of the
next vendor-library call, `acc` the bytes collected so far.  Each
iteration is one `available()` call and, if it returned a positive count,
one `read()` call. -/
def readLoop (r : RadioRun) : List Nat → Nat → List Nat → Except (List Nat) (List Nat)
  | [], k, acc =>
    if raisesAt r k then .error r.errMsg else .ok acc
  | b :: rest, k, acc =>
    if raisesAt r k then .error r.errMsg
    else if raisesAt r (k + 1) then .error r.errMsg
    else readLoop r rest (k + 2) (acc ++ [b])

/-- Function `receive_message` from `receiver.py`: `request()` (call 0), `wait()`
(call 1), the `available() > 0` check (call 2), then the read loop
(calls 3, 4, ...).  Returns the received bytes together with the lines
printed during the call; any exception from a vendor call is caught, an
error line is printed, and empty bytes are returned. -/
def receive_message (r : RadioRun) : List Nat × List OutputLine :=
  if raisesAt r 0 then ([], [.errorReceiving r.errMsg])
  else if raisesAt r 1 then ([], [.errorReceiving r.errMsg])
  else if raisesAt r 2 then ([], [.errorReceiving r.errMsg])
  else
    match r.payload with
    | [] => ([], [])
    | _ :: _ =>
      match readLoop r r.payload 3 [] with
      | .ok msg => (msg, [])
      | .error e => ([], [.errorReceiving e])

/-- Number of vendor-library calls a `receive_message` run makes when no
call raises: `request`, `wait`, the guard `available`, then per byte one
`available` and one `read`, and one final `available` returning 0. -/
def totalCalls (payload : List Nat) : Nat :=
  if payload = [] then 3 else 4 + 2 * payload.length

/-! ## The main loop of `receiver.py` -/

/-- One iteration of the `while True` loop in `main`: call
`receive_message`; if the message is non-empty, increment the packet
counter and print the packet header, length, data (via `bytes_to_text`),
hex dump, and a blank line.  Returns the new counter and the lines printed
this iteration. -/
def mainIter (packet_count : Nat) (r : RadioRun) : Nat × List OutputLine :=
  let res := receive_message r
  let message := res.1
  if message.isEmpty then (packet_count, res.2)
  else
    (packet_count + 1,
     res.2 ++
       [.packetHeader (packet_count + 1), .lengthLine message.length,
        .dataLine (bytes_to_text message), .hexLine (bytesHex message), .blankLine])

/-- The main loop run over a finite list of per-iteration radio behaviours,
threading the packet counter. -/
def mainLoop : Nat → List RadioRun → Nat × List OutputLine
  | packet_count, [] => (packet_count, [])
  | packet_count, r :: rs =>
    let step := mainIter packet_count r
    let rest := mainLoop step.1 rs
    (rest.1, step.2 ++ rest.2)

/-- Function `main` starts the loop with `packet_count = 0`. -/
def mainRun (rs : List RadioRun) : Nat × List OutputLine := mainLoop 0 rs

/-- Is this printed line a payload-data print (the `Data:` line of
`receiver.py` or the `Received:` line of `sample.py`)? -/
def isPayloadLine : OutputLine → Bool
  | .dataLine _ => true
  | .receivedLine _ => true
  | _ => false

/-- Does a list of printed lines include a payload-data print? -/
def printsPayload (lines : List OutputLine) : Bool := lines.any isPayloadLine

/-- Erase the packet counter from a printed line (used to state that the
counter influences nothing but its own display). -/
def eraseCount : OutputLine → OutputLine
  | .packetHeader _ => .packetHeader 0
  | l => l

/-! ## The module-level script of `sample.py` -/

/-- Status codes compared by `sample.py`; the values of the vendor-library
constants `STATUS_CRC_ERR` and `STATUS_HEADER_ERR` are parameters of the
model. -/
structure StatusCodes where
  crcErr : Int
  headerErr : Int
  deriving DecidableEq

/-- One iteration of the `while True` loop of `sample.py`: after
`request()`/`wait()`, the read loop turns the payload bytes into a string
(`chr` of each byte), then the message is printed unconditionally, then
the RSSI/SNR status line, then a CRC-error or header-error line when
`status()` matches the corresponding vendor constant. -/
def sampleIter (payload : List Nat) (status : Int) (codes : StatusCodes) :
    List OutputLine :=
  [.receivedLine payload, .statusLine] ++
    (if status = codes.crcErr then [.crcErrorLine]
     else if status = codes.headerErr then [.headerErrorLine]
     else [])

/-- Outcome of running the top of `sample.py` (everything before the
receive loop). -/
structure SampleStartup where
  printed : List OutputLine
  raisedUncaught : Bool
  receiveStarted : Bool
  deriving DecidableEq

/-- The configuration progress prints of `sample.py` made after a
successful `begin()` (frequency, RX gain, modulation, packet parameters,
sync word, banner), in order. -/
def sampleConfigPrints : List OutputLine :=
  [.configLine 0, .configLine 1, .configLine 2, .configLine 3, .configLine 4,
   .configLine 5]

/-- The module-level initialization path of `sample.py`: print
`Begin LoRa radio`; if `begin()` returns a falsy result, print the
library error code from `getLastError()` and raise an uncaught exception
(so the receive loop is never reached); otherwise run the configuration
calls with their progress prints and enter the receive loop. -/
def sampleStartup (beginOk : Bool) (lastError : Int) : SampleStartup :=
  if beginOk then
    { printed := .beginLine :: sampleConfigPrints
      raisedUncaught := false
      receiveStarted := true }
  else
    { printed := [.beginLine, .beginFailedLine lastError]
      raisedUncaught := true
      receiveStarted := false }

/-! ## Radio configuration calls of the two variants -/

/-- Vendor-library constant `SX127x.HEADER_EXPLICIT` (both scripts use the
same constant; its numeric value does not matter for any claim). -/
def HEADER_EXPLICIT : Nat := 0

/-- Vendor-library constant `SX127x.RX_GAIN_POWER_SAVING`. -/
def RX_GAIN_POWER_SAVING : Nat := 1

/-- Vendor-library constant `SX127x.TX_POWER_SX1276`. -/
def TX_POWER_SX1276 : Nat := 1

/-- The configuration setter calls the two scripts make on the vendor
radio object, with their arguments. -/
inductive ConfigCall
  | setFrequency (f : Nat)
  | setTxPower (p : Nat) (version : Nat)
  | setRxGain (g : Nat)
  | setLoRaModulation (sf bw cr : Nat) (ldro : Bool)
  | setLoRaPacket (headerType preambleLen payloadLen : Nat) (crcType invertIq : Bool)
  | setSpreadingFactor (sf : Nat)
  | setBandwidth (bw : Nat)
  | setCodeRate (cr : Nat)
  | setHeaderType (headerType : Nat)
  | setPreambleLength (p : Nat)
  | setCrcEnable (b : Bool)
  | setSyncWord (s : Nat)
  deriving DecidableEq

/-- The modem configuration registers the setter calls write. -/
structure LoraConfig where
  frequency : Nat
  spreadingFactor : Nat
  bandwidth : Nat
  codingRate : Nat
  syncWord : Nat
  preambleLength : Nat
  headerType : Nat
  payloadLength : Nat
  crcOn : Bool
  invertIq : Bool
  ldro : Bool
  txPower : Nat
  rxGain : Nat
  deriving DecidableEq

/-- Effect of one setter call on the configuration. -/
def applyCall (c : LoraConfig) : ConfigCall → LoraConfig
  | .setFrequency f => { c with frequency := f }
  | .setTxPower p _ => { c with txPower := p }
  | .setRxGain g => { c with rxGain := g }
  | .setLoRaModulation sf bw cr ldro =>
    { c with spreadingFactor := sf, bandwidth := bw, codingRate := cr, ldro := ldro }
  | .setLoRaPacket ht pl payl crc inv =>
    { c with headerType := ht, preambleLength := pl, payloadLength := payl,
             crcOn := crc, invertIq := inv }
  | .setSpreadingFactor sf => { c with spreadingFactor := sf }
  | .setBandwidth bw => { c with bandwidth := bw }
  | .setCodeRate cr => { c with codingRate := cr }
  | .setHeaderType ht => { c with headerType := ht }
  | .setPreambleLength p => { c with preambleLength := p }
  | .setCrcEnable b => { c with crcOn := b }
  | .setSyncWord s => { c with syncWord := s }

/-- Apply a sequence of setter calls in order. -/
def applyCalls (init : LoraConfig) (calls : List ConfigCall) : LoraConfig :=
  calls.foldl applyCall init

/-- The setter calls made by `initialize_lora_receiver` in `receiver.py`,
in source order (after `setPins`/`begin`): frequency, TX power, RX gain,
modulation with low-data-rate optimization exactly when the spreading
factor is at least 11, packet parameters (explicit header, 255-byte
maximum payload, CRC on, no IQ inversion), sync word. -/
def initialize_lora_receiver (frequency spreading_factor bandwidth coding_rate
    sync_word preamble_length : Nat) : List ConfigCall :=
  [.setFrequency frequency,
   .setTxPower 14 TX_POWER_SX1276,
   .setRxGain RX_GAIN_POWER_SAVING,
   .setLoRaModulation spreading_factor bandwidth coding_rate
     (decide (11 ≤ spreading_factor)),
   .setLoRaPacket HEADER_EXPLICIT preamble_length 255 true false,
   .setSyncWord sync_word]

/-- The configuration `receiver.py`'s `main` requests:
`initialize_lora_receiver` applied to the constants of `main`. -/
def receiverMainCalls : List ConfigCall :=
  initialize_lora_receiver 915000000 9 125000 7 0x12 10

/-- The module-level setter calls of `sample.py`, in source order (after
`setPins`/`begin`). -/
def sampleCalls : List ConfigCall :=
  [.setFrequency 915000000,
   .setRxGain RX_GAIN_POWER_SAVING,
   .setSpreadingFactor 9,
   .setBandwidth 125000,
   .setCodeRate 7,
   .setHeaderType HEADER_EXPLICIT,
   .setPreambleLength 10,
   .setCrcEnable true,
   .setSyncWord 0x12]

/-- The six wire-compatibility parameters the spec singles out. -/
structure WireParams where
  frequency : Nat
  spreadingFactor : Nat
  bandwidth : Nat
  codingRate : Nat
  syncWord : Nat
  preambleLength : Nat
  deriving DecidableEq

/-- Project the wire-compatibility parameters out of a configuration. -/
def wireParams (c : LoraConfig) : WireParams :=
  { frequency := c.frequency
    spreadingFactor := c.spreadingFactor
    bandwidth := c.bandwidth
    codingRate := c.codingRate
    syncWord := c.syncWord
    preambleLength := c.preambleLength }

/-! ## The interrupt-callback variant -/

/-- Modelled from the spec: the third script variant (not present under
`src/`) registers an interrupt callback with the vendor library, and the
callback sets a module-level flag.  The module state is that flag. -/
structure CallbackModule where
  receivedFlag : Bool
  deriving DecidableEq

/-- Modelled from the spec: the registered interrupt callback, invoked by
the vendor library's own event handling; it sets the module-level flag. -/
def onReceiveCallback (m : CallbackModule) : CallbackModule :=
  { m with receivedFlag := true }

/-- Modelled from the spec: events delivered by the vendor library's event
handling; a packet arrival invokes the registered callback. -/
inductive VendorEvent
  | packetArrived
  | idle
  deriving DecidableEq

/-- Modelled from the spec: the vendor library's event handling dispatches
a packet arrival to the registered callback and does nothing otherwise. -/
def vendorEventStep (m : CallbackModule) : VendorEvent → CallbackModule
  | .packetArrived => onReceiveCallback m
  | .idle => m

/-- Modelled from the spec: the main loop of that variant polls the
module-level flag to detect packet arrival. -/
def mainLoopPoll (m : CallbackModule) : Bool := m.receivedFlag

/-! ## Decoding lemmas -/

theorem utf8Decode_nil : utf8Decode [] = some [] := rfl

/-- All-ASCII byte sequences are valid UTF-8 and decode to themselves. -/
theorem utf8Decode_of_ascii (l : List Nat) (h : l.all (fun b => b ≤ 0x7F) = true) :
    utf8Decode l = some l := by
  unfold utf8Decode
  induction l with
  | nil => rfl
  | cons b rest ih =>
    rw [List.all_cons, Bool.and_eq_true] at h
    have hb : b ≤ 0x7F := by simpa using h.1
    rw [utf8Aux, if_pos hb, ih h.2]
    rfl

/-- If UTF-8 decoding fails, ASCII decoding fails too. -/
theorem asciiDecode_eq_none_of_utf8 (l : List Nat) (h : utf8Decode l = none) :
    asciiDecode l = none := by
  unfold asciiDecode
  by_cases hall : l.all (fun b => b ≤ 0x7F) = true
  · rw [utf8Decode_of_ascii l hall] at h
    exact absurd h (by simp)
  · simp [hall]

/-- On valid UTF-8 input, `bytes_to_text` returns the decoded code points
with trailing nulls stripped. -/
theorem bytes_to_text_of_utf8 (data t : List Nat) (h : utf8Decode data = some t) :
    bytes_to_text data = rstripNull t := by
  unfold bytes_to_text
  by_cases hd : data = []
  · subst hd
    rw [utf8Decode_nil] at h
    cases h
    rfl
  · rw [if_neg hd, h]

/-- On invalid UTF-8 input, `bytes_to_text` returns the hex fallback. -/
theorem bytes_to_text_of_invalid (data : List Nat) (h : utf8Decode data = none) :
    bytes_to_text data = hexFallback data := by
  unfold bytes_to_text
  have hd : data ≠ [] := by
    intro he
    subst he
    rw [utf8Decode_nil] at h
    cases h
  rw [if_neg hd, h, asciiDecode_eq_none_of_utf8 data h]

/-! ## Receive lemmas -/

/-- With no failing call, the read loop returns the bytes collected so far
followed by the remaining payload, in order. -/
theorem readLoop_ok (r : RadioRun) (hfail : r.failAt = none) :
    ∀ remaining k acc, readLoop r remaining k acc = .ok (acc ++ remaining) := by
  intro remaining
  induction remaining with
  | nil =>
    intro k acc
    rw [readLoop]
    simp [raisesAt, hfail]
  | cons b rest ih =>
    intro k acc
    rw [readLoop]
    simp only [raisesAt, hfail]
    rw [ih (k + 2) (acc ++ [b])]
    simp

/-- C6: when no vendor call raises, `receive_message` returns exactly the
bytes delivered by the successive `read()` calls, in order, for as long as
`available()` is positive — that is, the whole payload — and prints
nothing; when `available()` is zero right after `wait()` (empty payload)
it returns the empty byte sequence. -/
theorem receive_message_ok (r : RadioRun) (hfail : r.failAt = none) :
    receive_message r = (r.payload, []) := by
  unfold receive_message
  simp only [raisesAt, hfail]
  match hp : r.payload with
  | [] => simp
  | b :: rest =>
    simp only [Bool.false_eq_true, if_false]
    rw [← hp, readLoop_ok r hfail r.payload 3 []]
    simp [hp]

/-- Witness for C6 at a concrete run: a three-byte payload with no failing
call is returned in order, and an empty payload gives empty bytes. -/
theorem receive_message_ok_witness :
    receive_message ⟨[1, 2, 3], none, []⟩ = ([1, 2, 3], []) ∧
    receive_message ⟨[], none, []⟩ = ([], []) :=
  ⟨receive_message_ok ⟨[1, 2, 3], none, []⟩ rfl,
   receive_message_ok ⟨[], none, []⟩ rfl⟩

/-- If the `n`-th vendor call raises and call `n` is actually reached
(`n < totalCalls payload`), the read loop propagates the exception. -/
theorem readLoop_fail (r : RadioRun) (n : Nat) (hfail : r.failAt = some n) :
    ∀ remaining k acc, k ≤ n → n ≤ k + 2 * remaining.length →
      readLoop r remaining k acc = .error r.errMsg := by
  intro remaining
  induction remaining with
  | nil =>
    intro k acc hk hn
    have hkn : k = n := by simpa using Nat.le_antisymm hk (by simpa using hn)
    rw [readLoop]
    simp [raisesAt, hfail, hkn]
  | cons b rest ih =>
    intro k acc hk hn
    rw [readLoop]
    by_cases h0 : k = n
    · simp [raisesAt, hfail, h0]
    · by_cases h1 : k + 1 = n
      · simp [raisesAt, hfail, h1]
      · have hk2 : k + 2 ≤ n := by omega
        have hn2 : n ≤ (k + 2) + 2 * rest.length := by
          simp only [List.length_cons] at hn
          omega
        simp only [raisesAt, hfail]
        rw [if_neg (by simpa using h0), if_neg (by simpa using h1)]
        exact ih (k + 2) (acc ++ [b]) hk2 hn2

/-- C4: if any vendor-library call actually made inside `receive_message`
raises an exception, the exception is caught there, the
`Error receiving message:` line is printed, and the empty byte sequence is
returned instead of the exception propagating. -/
theorem receive_message_fail (r : RadioRun) (n : Nat) (hfail : r.failAt = some n)
    (hn : n < totalCalls r.payload) :
    receive_message r = ([], [.errorReceiving r.errMsg]) := by
  unfold receive_message
  by_cases h0 : n = 0
  · simp [raisesAt, hfail, h0]
  · by_cases h1 : n = 1
    · simp [raisesAt, hfail, h1]
    · by_cases h2 : n = 2
      · simp [raisesAt, hfail, h2]
      · have hge : 3 ≤ n := by omega
        simp only [raisesAt, hfail]
        rw [if_neg (by simp; omega), if_neg (by simp; omega), if_neg (by simp; omega)]
        match hp : r.payload with
        | [] =>
          rw [hp] at hn
          simp [totalCalls] at hn
          omega
        | b :: rest =>
          rw [hp] at hn
          have hlen : n ≤ 3 + 2 * (b :: rest).length := by
            simp only [totalCalls, List.length_cons] at hn ⊢
            simp at hn
            omega
          rw [readLoop_fail r n hfail (b :: rest) 3 [] hge hlen]

/-- Witness for C4 at a concrete run: the fifth vendor call (a `read()`)
of a two-byte packet raises; the error is printed and empty bytes come
back. -/
theorem receive_message_fail_witness :
    receive_message ⟨[7, 8], some 4, [101]⟩ = ([], [.errorReceiving [101]]) :=
  receive_message_fail ⟨[7, 8], some 4, [101]⟩ 4 rfl (by decide)

/-! ## Helper lemmas -/

/-- Whatever happens inside `receive_message`, the lines it prints never
include a payload-data print (they are at most one error line). -/
theorem printsPayload_receive (r : RadioRun) :
    printsPayload (receive_message r).2 = false := by
  unfold receive_message
  split_ifs <;> try rfl
  split
  · rfl
  · split <;> rfl

/-- In `receiver.py`'s main loop, a data line is printed in an iteration
exactly when the bytes returned by `receive_message` are non-empty. -/
theorem mainIter_printsPayload (pc : Nat) (r : RadioRun) :
    printsPayload (mainIter pc r).2 = !(receive_message r).1.isEmpty := by
  by_cases h : (receive_message r).1.isEmpty = true
  · simp only [mainIter, h, if_true, Bool.not_true]
    exact printsPayload_receive r
  · have hrec := printsPayload_receive r
    unfold printsPayload at hrec
    simp [mainIter, h, printsPayload, List.any_append, hrec, isPayloadLine]

/-- The packet counter advances by the number of non-empty messages. -/
theorem mainLoop_count (rs : List RadioRun) :
    ∀ pc, (mainLoop pc rs).1 =
      pc + (rs.filter (fun x => !(receive_message x).1.isEmpty)).length := by
  induction rs with
  | nil => intro pc; rfl
  | cons r rest ih =>
    intro pc
    simp only [mainLoop]
    rw [ih]
    by_cases h : (receive_message r).1.isEmpty = true <;>
      simp [mainIter, h, List.filter_cons]
    omega

/-- Stripping trailing nulls from an all-null string leaves nothing. -/
theorem rstripNull_replicate_zero (m : Nat) :
    rstripNull (List.replicate m 0) = [] := by
  unfold rstripNull
  rw [List.reverse_replicate]
  have hdrop : List.dropWhile (fun c => decide (c = 0)) (List.replicate m 0) = [] := by
    induction m with
    | zero => rfl
    | succ k ih => rw [List.replicate_succ, List.dropWhile_cons]; simp [ih]
  rw [hdrop]
  rfl

/-! ## Claims -/

/-- C1 counterexample: the claim fails on `sample.py`.  In its receive
loop, the iteration on a packet whose returned byte sequence is empty
(`[]`, length 0) still prints the packet's data (`Received: `). -/
theorem sample_loop_prints_empty_payload :
    printsPayload (sampleIter [] 0 ⟨1, 2⟩) = true ∧ ([] : List Nat).length = 0 :=
  ⟨rfl, rfl⟩

/-- C1 (amended): in `receiver.py`'s main receive loop a packet's data is
printed exactly when the byte sequence returned for that packet is
non-empty; `sample.py`'s receive loop instead prints the received message
unconditionally, also when it is empty. -/
theorem payload_print_guard (pc : Nat) (r : RadioRun) (payload : List Nat)
    (status : Int) (codes : StatusCodes) :
    printsPayload (mainIter pc r).2 = !(receive_message r).1.isEmpty ∧
    printsPayload (sampleIter payload status codes) = true := by
  refine ⟨mainIter_printsPayload pc r, ?_⟩
  simp [sampleIter, printsPayload, isPayloadLine]

/-- C2: `bytes_to_text` returns the `<hex: ...>` fallback string exactly on
byte sequences that are not valid UTF-8, and on valid UTF-8 input it
returns the decoded text (with trailing nulls stripped). -/
theorem bytes_to_text_hex_or_decoded (data : List Nat) :
    (utf8Decode data = none → bytes_to_text data = hexFallback data) ∧
    (∀ t, utf8Decode data = some t → bytes_to_text data = rstripNull t) :=
  ⟨fun h => bytes_to_text_of_invalid data h,
   fun t h => bytes_to_text_of_utf8 data t h⟩

/-- Witness for C2 at concrete inputs: `[0xFF]` is invalid UTF-8 and falls
back to hex; `[104, 105]` is valid UTF-8 and is decoded. -/
theorem bytes_to_text_hex_or_decoded_witness :
    bytes_to_text [0xFF] = hexFallback [0xFF] ∧
    bytes_to_text [104, 105] = rstripNull [104, 105] :=
  ⟨(bytes_to_text_hex_or_decoded [0xFF]).1 (by decide),
   (bytes_to_text_hex_or_decoded [104, 105]).2 [104, 105] (by decide)⟩

/-- C3: starting from any initial configurations, the setter calls of
`receiver.py`'s `main` and the module-level setter calls of `sample.py`
leave bit-for-bit identical wire parameters, namely frequency 915000000 Hz,
spreading factor 9, bandwidth 125000 Hz, coding rate 7, sync word `0x12`,
and preamble length 10. -/
theorem wire_compatibility (init₁ init₂ : LoraConfig) :
    wireParams (applyCalls init₁ receiverMainCalls) =
      wireParams (applyCalls init₂ sampleCalls) ∧
    wireParams (applyCalls init₁ receiverMainCalls) =
      ⟨915000000, 9, 125000, 7, 0x12, 10⟩ :=
  ⟨rfl, rfl⟩

/-- C5: on `sample.py`'s initialization path, when `begin()` reports
failure the script prints the library error code and raises an uncaught
exception, so the receive loop never starts. -/
theorem sample_begin_failure_aborts (lastError : Int) :
    (sampleStartup false lastError).raisedUncaught = true ∧
    (sampleStartup false lastError).receiveStarted = false ∧
    (sampleStartup false lastError).printed =
      [.beginLine, .beginFailedLine lastError] :=
  ⟨rfl, rfl, rfl⟩

/-- C7: the packet counter starts at zero (so after a whole run it equals
the number of non-empty messages), it advances by one exactly on non-empty
messages, and it influences only the console display: erasing the counter
from the printed lines makes an iteration's output independent of the
counter value, and the returned message handling does not depend on it. -/
theorem packet_counter_display_only (pc : Nat) (r : RadioRun) (rs : List RadioRun) :
    (mainIter pc r).1 = pc + (if (receive_message r).1.isEmpty then 0 else 1) ∧
    (mainRun rs).1 = (rs.filter (fun x => !(receive_message x).1.isEmpty)).length ∧
    (mainIter pc r).2.map eraseCount = (mainIter 0 r).2.map eraseCount := by
  refine ⟨?_, ?_, ?_⟩
  · by_cases h : (receive_message r).1.isEmpty = true <;> simp [mainIter, h]
  · rw [mainRun, mainLoop_count rs 0, Nat.zero_add]
  · by_cases h : (receive_message r).1.isEmpty = true <;> simp [mainIter, h, eraseCount]

/-- C8: in the interrupt-callback variant (modelled from the spec), the
callback registered with the vendor library sets the module-level flag
when the library's event handling reports a packet arrival, and the main
loop detects arrival precisely by polling that flag. -/
theorem callback_flag_polling (m : CallbackModule) :
    (onReceiveCallback m).receivedFlag = true ∧
    mainLoopPoll (vendorEventStep m .packetArrived) = true ∧
    mainLoopPoll m = m.receivedFlag :=
  ⟨rfl, rfl, rfl⟩

/-- C9: the ASCII branch of `bytes_to_text` is unreachable: whenever UTF-8
decoding fails, ASCII decoding fails as well, so the function goes straight
to the hex fallback. -/
theorem ascii_branch_unreachable (data : List Nat) (h : utf8Decode data = none) :
    asciiDecode data = none ∧ bytes_to_text data = hexFallback data :=
  ⟨asciiDecode_eq_none_of_utf8 data h, bytes_to_text_of_invalid data h⟩

/-- Witness for C9 at the concrete input `[0xC3]` (a truncated two-byte
sequence, invalid UTF-8). -/
theorem ascii_branch_unreachable_witness :
    asciiDecode [0xC3] = none ∧ bytes_to_text [0xC3] = hexFallback [0xC3] :=
  ascii_branch_unreachable [0xC3] (by decide)

/-- C10: on valid UTF-8 input `bytes_to_text` strips all trailing null
characters from the decoded text; a non-empty all-null payload yields the
empty string, and the empty byte sequence yields the empty string. -/
theorem bytes_to_text_trailing_nulls (data t : List Nat) (n : Nat)
    (h : utf8Decode data = some t) :
    bytes_to_text data = rstripNull t ∧
    bytes_to_text (List.replicate (n + 1) 0) = [] ∧
    bytes_to_text [] = [] := by
  refine ⟨bytes_to_text_of_utf8 data t h, ?_, rfl⟩
  have hdec : utf8Decode (List.replicate (n + 1) 0) =
      some (List.replicate (n + 1) 0) := by
    apply utf8Decode_of_ascii
    simp [List.all_eq_true]
  rw [bytes_to_text_of_utf8 _ _ hdec, rstripNull_replicate_zero]

/-- Witness for C10 at concrete inputs: `[104, 105, 0, 0]` decodes to
`hi\x00\x00` and the trailing nulls are stripped. -/
theorem bytes_to_text_trailing_nulls_witness :
    bytes_to_text [104, 105, 0, 0] = rstripNull [104, 105, 0, 0] ∧
    bytes_to_text (List.replicate 3 0) = [] ∧
    bytes_to_text [] = [] :=
  bytes_to_text_trailing_nulls [104, 105, 0, 0] [104, 105, 0, 0] 2 (by decide)

end Radio

